import Mathlib

/-!
# Verification of the deployment orchestration engine (web-hosting repository)

Shallow embedding of the Python deployment engine (`app/utils.py`, `app/forms.py`,
`app/views.py`) together with proofs and refutations of the spec claims.

Conventions used throughout:
* Python strings are Lean `String`s; helper functions on `List Char` mirror the
  Python `str` operations used by the source (`strip`, `startswith`, `endswith`,
  `in`, `lower`, `count`, `split`).
* OS effects (socket binds, process liveness, subprocess exit codes, raised
  exceptions) are modelled as explicit boolean/function parameters; a raised
  Python exception becomes a branch on such a flag, mirroring the source's
  `try`/`except`/`finally` structure.
* Machine integers do not overflow in the modelled ranges, so `Nat`/`Int` are
  used directly.

All definitions come first; all theorems follow at the end of the file.
-/

namespace WebHosting

/-! ## String helpers mirroring Python `str` operations -/

/-- Boolean list-prefix test (`needle` is a prefix of `hay`). -/
def isPrefixCB : List Char → List Char → Bool
  | [], _ => true
  | _ :: _, [] => false
  | a :: as, b :: bs => a == b && isPrefixCB as bs

/-- Boolean list-infix test (`needle` occurs contiguously inside `hay`). -/
def isInfixCB (needle : List Char) : List Char → Bool
  | [] => isPrefixCB needle []
  | b :: bs => isPrefixCB needle (b :: bs) || isInfixCB needle bs

/-- Python `needle in hay` on strings. -/
def strContains (hay needle : String) : Bool :=
  isInfixCB needle.data hay.data

/-- Python `s.startswith(p)`. -/
def strStartsWith (s p : String) : Bool :=
  isPrefixCB p.data s.data

/-- Python `s.endswith(p)`. -/
def strEndsWith (s p : String) : Bool :=
  isPrefixCB p.data.reverse s.data.reverse

/-- Whitespace characters stripped by Python `str.strip()` (the ones that can
occur in the modelled inputs). -/
def isPyWS (c : Char) : Bool :=
  c == ' ' || c == '\t' || c == '\n' || c == '\r'

/-- Python `s.strip()`. -/
def pyStrip (s : String) : String :=
  ⟨((s.data.dropWhile isPyWS).reverse.dropWhile isPyWS).reverse⟩

/-- Python `s.count(c)` for a single character. -/
def countChar (s : String) (c : Char) : Nat :=
  (s.data.filter (· == c)).length

/-- Python `s.lower()` (ASCII, which covers every string the code handles). -/
def strLower (s : String) : String :=
  ⟨s.data.map Char.toLower⟩

/-- Python `content.split(c)` for a single-character separator. -/
def splitCharAux (sep : Char) : List Char → List Char → List (List Char)
  | [], acc => [acc.reverse]
  | x :: xs, acc =>
    if x == sep then acc.reverse :: splitCharAux sep xs []
    else splitCharAux sep xs (x :: acc)

/-- Python `content.split('\n')`. -/
def splitLines (s : String) : List String :=
  (splitCharAux '\n' s.data []).map (⟨·⟩)

/-- Python `'\n'.join(lines)`. -/
def joinLines (lines : List String) : String :=
  ⟨List.intercalate ['\n'] (lines.map (·.data))⟩

/-- Path components of a `/`-separated path. -/
def pathParts (f : String) : List String :=
  (splitCharAux '/' f.data []).map (⟨·⟩)

/-- Python `os.path.dirname` for `/`-separated paths. -/
def dirname (p : String) : String :=
  ⟨List.intercalate ['/'] ((pathParts p).dropLast.map (·.data))⟩

/-- The `'{'` character (written via its code point so that braces appear
nowhere in the source text of a literal). -/
def lbrace : Char := Char.ofNat 123

/-- The `'}'` character. -/
def rbrace : Char := Char.ofNat 125

/-- Python `str(n)` for the port number. -/
def natStr (n : Nat) : String := Nat.repr n

/-! ## Port Allocator (`app/utils.py`, `find_available_port`, lines 734-743)

```python
def find_available_port(start_port=8000):
    for port in range(start_port, start_port + 100):
        try:
            with socket.socket(socket.AF_INET, socket.SOCK_STREAM) as s:
                s.bind(('localhost', port))
                return port
        except OSError:
            continue
    return start_port
```

The bind-and-release probe is modelled by a predicate `busy : Nat → Bool`:
`s.bind` succeeds exactly when the port is not busy at the moment of the check.
-/

/-- The probe loop: first non-busy port among `fuel` consecutive candidates
starting at `p`, if any. -/
def findFreeAux (busy : Nat → Bool) : Nat → Nat → Option Nat
  | _, 0 => none
  | p, fuel + 1 => if busy p then findFreeAux busy (p + 1) fuel else some p

/-- `find_available_port`: probe `start_port .. start_port+99`; on exhaustion the
final `return start_port` falls back to the base port itself. -/
def find_available_port (busy : Nat → Bool) (start_port : Nat := 8000) : Nat :=
  match findFreeAux busy start_port 100 with
  | some p => p
  | none => start_port

/-- Occupancy used to witness the allocator theorems: exactly port 8000 busy. -/
def c1Busy : Nat → Bool := fun p => p == 8000

/-! ## Process Supervisor (`app/utils.py`, `stop_django_project` lines 745-764,
`check_django_deployment_status` lines 797-840)

State: the per-deployment pid marker file (`None` when absent, or the recorded
pid) and the OS process table (`alive`). POSIX branch (`IS_WINDOWS = False`):
`os.kill(pid, signal.SIGTERM)` raises `ProcessLookupError` when the process does
not exist (in which case the wrapping `except` skips the `os.remove`, so the
marker file stays), and otherwise terminates it, after which `os.remove`
deletes the marker file. -/
structure SupState where
  pidFile : Option Nat
  alive : Nat → Bool

/-- Per-deployment status report; the Python dict's `'status'` key. -/
structure StatusReport where
  running : Bool
  logs : String

/-- `stop_django_project`. -/
def stop_django_project (s : SupState) : SupState :=
  match s.pidFile with
  | none => s
  | some pid =>
    if s.alive pid then
      -- kill succeeds and terminates the process; then `os.remove(pid_file)`
      { pidFile := none, alive := fun q => if q == pid then false else s.alive q }
    else
      -- `os.kill` raises; the `except` logs a warning and the marker stays
      s

/-- `check_django_deployment_status`: absent marker → `{'status': False}`;
otherwise probe liveness with `os.kill(pid, 0)`. -/
def check_django_deployment_status (s : SupState) : StatusReport :=
  match s.pidFile with
  | none => { running := false, logs := "Server not running" }
  | some pid => { running := s.alive pid, logs := "Process PID" }

/-- Supervisor state used by the witness: no marker file present. -/
def c7State : SupState := { pidFile := some 4242, alive := fun _ => true }

/-! ## Migration Runner (`app/utils.py`, `run_django_migrations_direct`,
lines 618-674)

The three subprocess calls may raise (e.g. `TimeoutExpired`); `collectstatic`
is wrapped in its own inner `try` whose handler only logs. The working
directory is the explicit state threaded through the model; the `finally:`
block always performs `os.chdir(original_dir)`. -/
structure MigEnv where
  manage_py_path : Option String
  chdir_ok : Bool
  makemigrations_raises : Bool
  migrate_raises : Bool
  collectstatic_raises : Bool

/-- Body of the `try:` in `run_django_migrations_direct`: returns the result
(or the raised exception) together with the working directory at the moment
control leaves the body. -/
def migTryBody (env : MigEnv) (project_root cwd : String) :
    Except Unit Bool × String :=
  if !env.chdir_ok then
    -- `os.chdir(project_root)` itself raised; cwd unchanged
    (Except.error (), cwd)
  else
    let cwd := project_root
    if env.makemigrations_raises then (Except.error (), cwd)
    else if env.migrate_raises then (Except.error (), cwd)
    else
      -- collectstatic's exception is caught by the inner handler, only logged
      let _collect_ok := !env.collectstatic_raises
      (Except.ok true, cwd)

/-- `run_django_migrations_direct`: returns the Python result together with the
orchestrator's working directory after the call. -/
def run_django_migrations_direct (env : MigEnv) (cwd0 : String) :
    Bool × String :=
  match env.manage_py_path with
  | none => (false, cwd0)  -- early return before any chdir
  | some mp =>
    let original_dir := cwd0    -- os.getcwd()
    let (res, _cwd_in_body) := migTryBody env (dirname mp) cwd0
    let cwd_final := original_dir  -- finally: os.chdir(original_dir)
    match res with
    | Except.ok b => (b, cwd_final)
    | Except.error _ => (false, cwd_final)  -- outer except → return False

/-! ## Configuration Rewriter (`app/utils.py`, `modify_existing_settings`,
lines 394-472)

Line scanner with skip state. Apostrophes and braces inside the canonical
replacement strings are written with `\x27` / `\x7b` / `\x7d` escapes. -/

/-- `os.path.join(project_folder, 'db.sqlite3').replace('\\', '/')` on a POSIX
host (no backslashes in the modelled inputs). -/
def dbPath (project_folder : String) : String :=
  project_folder ++ "/db.sqlite3"

/-- The `'NAME': r'<db_path>',` line of the canonical DATABASES replacement. -/
def dbNameLine (db_path : String) : String :=
  "        \x27NAME\x27: r\x27" ++ db_path ++ "\x27,"

/-- Constant lines of the canonical DATABASES replacement before the NAME
line. -/
def dbBlockPre : List String :=
  [ "# Modified DATABASES setting for SQLite",
    "DATABASES = \x7b",
    "    \x27default\x27: \x7b",
    "        \x27ENGINE\x27: \x27django.db.backends.sqlite3\x27," ]

/-- Constant lines of the canonical DATABASES replacement after the NAME
line. -/
def dbBlockPost : List String :=
  [ "    \x7d",
    "\x7d" ]

/-- Canonical DATABASES replacement block appended by the rewriter. -/
def dbBlockLines (db_path : String) : List String :=
  dbBlockPre ++ [dbNameLine db_path] ++ dbBlockPost

/-- Canonical ALLOWED_HOSTS replacement line. -/
def allowedHostsLine (domain : String) (port : Nat) : String :=
  "ALLOWED_HOSTS = [\x27localhost\x27, \x27127.0.0.1\x27, \x270.0.0.0\x27, \x27"
    ++ domain ++ "\x27, \x27" ++ domain ++ ":" ++ natStr port ++ "\x27]"

/-- Canonical MIDDLEWARE replacement block. -/
def middlewareBlockLines : List String :=
  [ "# Modified MIDDLEWARE to include WhiteNoise",
    "MIDDLEWARE = [",
    "    \x27django.middleware.security.SecurityMiddleware\x27,",
    "    \x27whitenoise.middleware.WhiteNoiseMiddleware\x27,",
    "    \x27django.contrib.sessions.middleware.SessionMiddleware\x27,",
    "    \x27django.middleware.common.CommonMiddleware\x27,",
    "    \x27django.middleware.csrf.CsrfViewMiddleware\x27,",
    "    \x27django.contrib.auth.middleware.AuthenticationMiddleware\x27,",
    "    \x27django.contrib.messages.middleware.MessageMiddleware\x27,",
    "    \x27django.middleware.clickjacking.XFrameOptionsMiddleware\x27,",
    "]" ]

/-- `line.strip().startswith('#')`. -/
def isCommentLine (line : String) : Bool :=
  strStartsWith (pyStrip line) "#"

/-- Condition of the DATABASES branch:
`'DATABASES' in line and '=' in line and not line.strip().startswith('#')`. -/
def isDatabasesAssign (line : String) : Bool :=
  strContains line "DATABASES" && strContains line "=" && !(isCommentLine line)

/-- Condition of the ALLOWED_HOSTS branch:
`line.strip().startswith('ALLOWED_HOSTS') and not line.strip().startswith('#')`. -/
def isAllowedHostsAssign (line : String) : Bool :=
  strStartsWith (pyStrip line) "ALLOWED_HOSTS" && !(isCommentLine line)

/-- Condition of the DEBUG branch. -/
def isDebugAssign (line : String) : Bool :=
  strStartsWith (pyStrip line) "DEBUG" && strContains line "="
    && !(isCommentLine line)

/-- Condition of the MIDDLEWARE branch; `whitenoiseAbsent` is the loop-constant
`'whitenoise' not in content.lower()`. -/
def isMiddlewareAssign (whitenoiseAbsent : Bool) (line : String) : Bool :=
  strContains line "MIDDLEWARE" && strContains line "=" && whitenoiseAbsent
    && !(isCommentLine line)

/-- Scanner state: accumulated output lines, `skip_until_end`, `brace_count`. -/
structure RewriteState where
  out : List String
  skip_until_end : Bool
  brace_count : Int

/-- Initial scanner state. -/
def rewriteInit : RewriteState :=
  { out := [], skip_until_end := false, brace_count := 0 }

/-- One iteration of the `for line in lines:` loop of
`modify_existing_settings`, translated branch by branch. -/
def modifyLine (db_path domain : String) (port : Nat) (whitenoiseAbsent : Bool)
    (s : RewriteState) (line : String) : RewriteState :=
  if s.skip_until_end then
    let bc := if strContains line "\x7b" then
        s.brace_count + (countChar line lbrace : Int)
      else s.brace_count
    if strContains line "\x7d" then
      let bc := bc - (countChar line rbrace : Int)
      if bc ≤ 0 then { s with skip_until_end := false, brace_count := 0 }
      else { s with brace_count := bc }
    else { s with brace_count := bc }
  else if isDatabasesAssign line then
    let out := s.out ++ dbBlockLines db_path
    if strContains line "\x7b" then
      { out := out, skip_until_end := true,
        brace_count := (countChar line lbrace : Int) - (countChar line rbrace : Int) }
    else { s with out := out }
  else if isAllowedHostsAssign line then
    { s with out := s.out ++ [allowedHostsLine domain port] }
  else if isDebugAssign line then
    { s with out := s.out ++ ["DEBUG = True"] }
  else if isMiddlewareAssign whitenoiseAbsent line then
    let out := s.out ++ middlewareBlockLines
    if strContains line "[" then
      { out := out, skip_until_end := true, brace_count := 1 }
    else { s with out := out }
  else
    { s with out := s.out ++ [line] }

/-- The scanner run over a list of lines. -/
def modifyLines (lines : List String) (project_folder domain : String)
    (port : Nat) (whitenoiseAbsent : Bool) : List String :=
  (lines.foldl (modifyLine (dbPath project_folder) domain port whitenoiseAbsent)
    rewriteInit).out

/-- `modify_existing_settings` (the in-place textual transform). -/
def modify_existing_settings (content project_folder domain : String)
    (port : Nat) : String :=
  let whitenoiseAbsent := !(strContains (strLower content) "whitenoise")
  joinLines (modifyLines (splitLines content) project_folder domain port
    whitenoiseAbsent)

/-- Number of lines the scanner would recognize as a DATABASES assignment. -/
def countDatabasesAssigns (lines : List String) : Nat :=
  (lines.filter isDatabasesAssign).length

/-- Number of lines the scanner would recognize as an ALLOWED_HOSTS
assignment. -/
def countAllowedHostsAssigns (lines : List String) : Nat :=
  (lines.filter isAllowedHostsAssign).length

/-- DATABASES-assignment count of a whole configuration file. -/
def countDatabasesAssignsStr (content : String) : Nat :=
  countDatabasesAssigns (splitLines content)

/-- ALLOWED_HOSTS-assignment count of a whole configuration file. -/
def countAllowedHostsAssignsStr (content : String) : Nat :=
  countAllowedHostsAssigns (splitLines content)

/-- Configuration input with a duplicated hostnames assignment. -/
def c4Input : String := "ALLOWED_HOSTS = []\nALLOWED_HOSTS = []"

/-- Configuration input whose middleware list spans multiple lines and is
followed by a further setting. -/
def c5Input : String :=
  "MIDDLEWARE = [\n    \x27django.middleware.security.SecurityMiddleware\x27,\n]\nROOT_URLCONF = \x27mysite.urls\x27"

/-- Configuration input whose database dict spans multiple lines and is
followed by a further setting. -/
def c5DbInput : String :=
  "DATABASES = \x7b\n    \x27default\x27: \x7b\x7d\n\x7d\nROOT_URLCONF = \x27mysite.urls\x27"

/-! ## Archive Validator (`app/forms.py`,
`DjangoProjectForm.clean_project_file`, lines 153-209)

An archive is `none` when `zipfile.ZipFile` raises `BadZipFile`, and otherwise
`some file_list` (the zip's name list). -/

/-- Structured verdict of the validator. -/
inductive ArchiveVerdict where
  | ok
  | malformedArchive
  | missingEntryScript
  | missingConfigModule
  deriving DecidableEq

/-- `any(f.lower().endswith('manage.py') and not f.startswith('__MACOSX') ...)`. -/
def zipHasManagePy (file_list : List String) : Bool :=
  file_list.any fun f =>
    strEndsWith (strLower f) "manage.py" && !(strStartsWith f "__MACOSX")

/-- `any('settings.py' in f.lower() and not f.startswith('__MACOSX') ...)`. -/
def zipHasSettings (file_list : List String) : Bool :=
  file_list.any fun f =>
    strContains (strLower f) "settings.py" && !(strStartsWith f "__MACOSX")

/-- `clean_project_file` (extension and size checks already passed). -/
def clean_project_file (archive : Option (List String)) : ArchiveVerdict :=
  match archive with
  | none => ArchiveVerdict.malformedArchive
  | some files =>
    if !(zipHasManagePy files) then ArchiveVerdict.missingEntryScript
    else if !(zipHasSettings files) then ArchiveVerdict.missingConfigModule
    else ArchiveVerdict.ok

/-- Spec-side predicate: a file named exactly `manage.py`, not under any
Mac-metadata folder at any depth. -/
def specEntryScript (f : String) : Bool :=
  ((pathParts f).getLast? == some "manage.py")
    && !((pathParts f).any (fun c => c == "__MACOSX"))

/-- Spec-side predicate: a path containing `settings.py`, Mac-metadata paths
excluded at any depth. -/
def specConfigModule (f : String) : Bool :=
  strContains f "settings.py"
    && !((pathParts f).any (fun c => c == "__MACOSX"))

/-- Archive name list refuting the claim: `xmanage.py` is not named exactly
`manage.py`, yet the validator accepts it. -/
def c3Files : List String := ["app/xmanage.py", "app/settings.py"]

/-! ## Dependency Resolver (`app/utils.py`, `install_from_requirements_file`
lines 153-230, and `deploy_django_no_venv` lines 70-103) -/

/-- Denylist substrings skipped by the requirements filter. -/
def denySubstrings : List String := ["psycopg", "mysql", "oracle", "pywin32"]

/-- One iteration of the filtering loop: strip the line, drop blank/comment/
option lines, drop denylisted packages. -/
def keepRequirement (req : String) : Option String :=
  let r := pyStrip req
  if r == "" || strStartsWith r "#" || strStartsWith r "-" then none
  else if denySubstrings.any (fun d => strContains (strLower r) d) then none
  else some r

/-- The `safe_requirements` list. -/
def filterRequirements (reqs : List String) : List String :=
  reqs.filterMap keepRequirement

/-- `install_from_requirements_file`: result flag together with the package
lists handed to pip (`[safe]` for the bulk attempt via the temporary
requirements file, then one singleton per package on bulk failure). `readOk` is
false when reading the requirements file raises (the outer `except`: return
False); pip exit codes of the individual installs are only logged, and the
function returns True regardless. -/
def install_from_requirements_file (readOk : Bool) (reqs : List String)
    (bulkOk : Bool) : Bool × List (List String) :=
  if !readOk then (false, [])
  else
    let safe := filterRequirements reqs
    if safe.isEmpty then (true, [])
    else if bulkOk then (true, [safe])
    else (true, safe :: safe.map (fun p => [p]))

/-- Steps of `deploy_django_no_venv` in source order. -/
inductive PipelineStep where
  | findPort
  | installRequirements
  | configureSettings
  | runMigrations
  | startServer
  deriving DecidableEq

/-- Outcomes of the blocking sub-steps of `deploy_django_no_venv`. -/
structure DeployEnv where
  installOk : Bool
  configureOk : Bool
  startOk : Bool
  port : Nat

/-- `deploy_django_no_venv`: Python result triple `(success, port, error)`
together with the trace of steps actually executed. The install result is only
logged as a warning; the pipeline continues either way. -/
def deploy_django_no_venv (env : DeployEnv) :
    (Bool × Option Nat × Option String) × List PipelineStep :=
  let steps := [PipelineStep.findPort, PipelineStep.installRequirements]
  if !env.configureOk then
    ((false, none, some "Failed to configure Django settings"),
      steps ++ [PipelineStep.configureSettings])
  else
    let steps := steps ++ [PipelineStep.configureSettings,
      PipelineStep.runMigrations, PipelineStep.startServer]
    if env.startOk then ((true, some env.port, none), steps)
    else ((false, none, some "Failed to start Django server"), steps)

/-! ## Environment-variable cleaner (`app/forms.py`, `clean_environment_vars`,
lines 256-290)

Note on the source: `clean_project_name` (line 211) is defined at column 0, so
`clean_custom_domain` and `clean_environment_vars` (indented by 4) are nested
function definitions inside that module-level function, placed after its
`return`; they are never bound as methods of `DjangoProjectForm`. The function
below embeds the validator as written. -/

/-- First character class of `^[A-Z_][A-Z0-9_]*$`. -/
def isUpperIdentHead (c : Char) : Bool :=
  (decide ('A' ≤ c) && decide (c ≤ 'Z')) || c == '_'

/-- Remaining character class of `^[A-Z_][A-Z0-9_]*$`. -/
def isUpperIdentRest (c : Char) : Bool :=
  (decide ('A' ≤ c) && decide (c ≤ 'Z'))
    || (decide ('0' ≤ c) && decide (c ≤ '9')) || c == '_'

/-- `re.match(r'^[A-Z_][A-Z0-9_]*$', key)` succeeds. -/
def matchesEnvKeyPattern (s : String) : Bool :=
  match s.data with
  | [] => false
  | c :: cs => isUpperIdentHead c && cs.all isUpperIdentRest

/-- Python `line.split('=', 1)` when `'=' in line`: the parts before and after
the first `'='` (the fallback for a separator-free input is the whole line,
unreachable under the guard). -/
def splitFirstEq : List Char → List Char × List Char
  | [] => ([], [])
  | c :: cs =>
    if c == '=' then ([], cs)
    else
      let (a, b) := splitFirstEq cs
      (c :: a, b)

/-- Python dict assignment `env_dict[key] = value` on an association list. -/
def envInsert (acc : List (String × String)) (k v : String) :
    List (String × String) :=
  if acc.any (fun p => p.1 == k) then
    acc.map (fun p => if p.1 == k then (k, v) else p)
  else acc ++ [(k, v)]

/-- The `for line in env_vars.split('\n'):` loop. -/
def cleanEnvAux : List String → List (String × String) →
    Except String (List (String × String))
  | [], acc => Except.ok acc
  | line :: rest, acc =>
    let line := pyStrip line
    if line != "" && strContains line "=" then
      let (k, v) := splitFirstEq line.data
      let key := pyStrip ⟨k⟩
      let value := pyStrip ⟨v⟩
      if !(matchesEnvKeyPattern key) then
        Except.error ("Invalid environment variable name: " ++ key
          ++ ". Use uppercase letters, numbers, and underscores only.")
      else cleanEnvAux rest (envInsert acc key value)
    else if line != "" then
      Except.error ("Invalid environment variable format: " ++ line
        ++ ". Use KEY=value format.")
    else cleanEnvAux rest acc

/-- `clean_environment_vars` on a string input: `Except.error` models
`forms.ValidationError`, `Except.ok` the returned dict. -/
def clean_environment_vars (env_vars : String) :
    Except String (List (String × String)) :=
  let s := pyStrip env_vars
  if s == "" then Except.ok []
  else cleanEnvAux (splitLines s) []

/-! ## Structure Detector (`app/utils.py`, `detect_django_structure`
lines 766-795, and the primary validity check of `deploy_django_project`
lines 48-51)

The extracted tree is flattened to the list of its file paths (component
lists, in walk order); `os.walk` prunes directories whose name starts with
`'.'`, so a file is reachable exactly when none of its directory components is
hidden. -/

/-- No directory component of the path is hidden. -/
def visibleDirs (p : List String) : Bool :=
  p.dropLast.all (fun c => !(strStartsWith c "."))

/-- The walk finds `manage.py` at this path. -/
def isManagePath (p : List String) : Bool :=
  (p.getLast? == some "manage.py") && visibleDirs p

/-- A settings file in an immediate, non-hidden subdirectory of `root`
(the `project_root.iterdir()` search). -/
def isSettingsUnder (root : List String) (q : List String) : Bool :=
  root.isPrefixOf q &&
    match q.drop root.length with
    | [n, f] => !(strStartsWith n ".") && f == "settings.py"
    | _ => false

/-- Detection result (`django_info`). -/
structure DjangoInfo where
  is_django : Bool
  manage_py_path : Option (List String)
  settings_module : Option String

/-- `detect_django_structure` over the flattened tree. -/
def detect_django_structure (paths : List (List String)) : DjangoInfo :=
  match paths.find? isManagePath with
  | none =>
    { is_django := false, manage_py_path := none, settings_module := none }
  | some p =>
    let root := p.dropLast
    let settings_module := (paths.find? (isSettingsUnder root)).bind fun q =>
      ((q.drop root.length).head?).map (fun n => n ++ ".settings")
    { is_django := true, manage_py_path := some p,
      settings_module := settings_module }

/-- The pipeline's primary validity check in `deploy_django_project`:
`if not django_info['is_django']: return {'success': False, 'error': ...}`. -/
def deployGateError (paths : List (List String)) : Option String :=
  if !(detect_django_structure paths).is_django then
    some "Not a valid Django project - missing manage.py or settings.py"
  else none

/-- Tree with an entry script but no configuration module anywhere. -/
def c10Paths : List (List String) :=
  [["proj", "manage.py"], ["proj", "app", "views.py"]]

/-! ## Update/Rollback Manager (`app/views.py`, `update_django_project`,
lines 693-811)

Environment fields record which filesystem/subprocess events occur during the
POST handling; fields the code never reads (`compose_up_exit`,
`restored_process_up`) are carried to state the claim about them. -/
structure UpdateEnv where
  deploy_success : Bool
  backup_exists : Bool
  folder_exists_at_restore : Bool
  rm_raises : Bool
  move_raises : Bool
  compose_up_raises : Bool
  compose_up_exit : Nat
  restored_process_up : Bool
  remove_old_raises : Bool

/-- Persisted outcome of the update request. -/
structure UpdateOutcome where
  deployment_status : String
  is_active : Bool
  new_archive_recorded : Bool
  old_archive_deleted : Bool
  response_success : Bool

/-- `update_django_project` after the new archive has been saved as
`project.project_file`: the commit path on pipeline success, the restore path
on failure. On the restore path the exit status of `docker-compose up -d` is
captured but never inspected; `deployed` is reasserted whenever no restore
step raises, and the `except` handler leaves `failed` in place otherwise. -/
def update_django_project (env : UpdateEnv) : UpdateOutcome :=
  if env.deploy_success then
    { deployment_status := "deployed", is_active := true,
      new_archive_recorded := true,
      old_archive_deleted := !env.remove_old_raises,
      response_success := true }
  else
    let restore_ok := env.backup_exists
      && (!env.folder_exists_at_restore || !env.rm_raises)
      && !env.move_raises && !env.compose_up_raises
    if restore_ok then
      { deployment_status := "deployed", is_active := true,
        new_archive_recorded := true, old_archive_deleted := false,
        response_success := false }
    else
      { deployment_status := "failed", is_active := false,
        new_archive_recorded := true, old_archive_deleted := false,
        response_success := false }

/-- Update run in which every restore step succeeds but the restored process
does not come up. -/
def c2Env : UpdateEnv :=
  { deploy_success := false, backup_exists := true,
    folder_exists_at_restore := true, rm_raises := false,
    move_raises := false, compose_up_raises := false, compose_up_exit := 1,
    restored_process_up := false, remove_old_raises := false }

end WebHosting

namespace WebHosting

/-! ## Theorems -/

/-! ### Port allocator lemmas -/

theorem findFreeAux_some {busy : Nat → Bool} :
    ∀ (fuel p r : Nat), findFreeAux busy p fuel = some r →
      p ≤ r ∧ r < p + fuel ∧ busy r = false := by
  intro fuel
  induction fuel with
  | zero => intro p r h; simp [findFreeAux] at h
  | succ n ih =>
    intro p r h
    simp only [findFreeAux] at h
    by_cases hb : busy p
    · simp [hb] at h
      rcases ih (p + 1) r h with ⟨h1, h2, h3⟩
      exact ⟨by omega, by omega, h3⟩
    · simp [hb] at h
      subst h
      exact ⟨le_refl _, by omega, by simpa using hb⟩

theorem findFreeAux_none {busy : Nat → Bool} :
    ∀ (fuel p : Nat), findFreeAux busy p fuel = none →
      ∀ q, p ≤ q → q < p + fuel → busy q = true := by
  intro fuel
  induction fuel with
  | zero => intro p _ q h1 h2; omega
  | succ n ih =>
    intro p h q h1 h2
    simp only [findFreeAux] at h
    by_cases hb : busy p
    · simp [hb] at h
      rcases Nat.eq_or_lt_of_le h1 with rfl | hlt
      · exact hb
      · exact ih (p + 1) h q hlt (by omega)
    · simp [hb] at h

theorem findFreeAux_isSome_of_free {busy : Nat → Bool} :
    ∀ (fuel p q : Nat), p ≤ q → q < p + fuel → busy q = false →
      (findFreeAux busy p fuel).isSome := by
  intro fuel
  induction fuel with
  | zero => intro p q h1 h2; omega
  | succ n ih =>
    intro p q h1 h2 h3
    simp only [findFreeAux]
    by_cases hb : busy p
    · simp [hb]
      rcases Nat.eq_or_lt_of_le h1 with rfl | hlt
      · rw [h3] at hb; exact absurd hb (by simp)
      · have := ih (p + 1) q hlt (by omega) h3
        simpa using this
    · simp [hb]

/-- C1 counterexample: when every port in the probe range is busy, the
allocator does not fail closed — it returns the base port 8000, a port that
is busy at the moment of the check. -/
theorem find_available_port_no_fail_closed :
    find_available_port (fun _ => true) 8000 = 8000
      ∧ (fun _ : Nat => true) 8000 = true := by
  constructor
  · rfl
  · rfl

/-- C1 (amended): when some port in the probe range is free, the returned port
lies within `[start_port, start_port + 100)` and is free at the moment of the
check; when no port in the range is free, the allocator returns the base port
itself instead of failing closed. -/
theorem find_available_port_amended (busy : Nat → Bool) (start_port : Nat) :
    ((∃ p, start_port ≤ p ∧ p < start_port + 100 ∧ busy p = false) →
      start_port ≤ find_available_port busy start_port
        ∧ find_available_port busy start_port < start_port + 100
        ∧ busy (find_available_port busy start_port) = false) ∧
    ((∀ p, start_port ≤ p → p < start_port + 100 → busy p = true) →
      find_available_port busy start_port = start_port) := by
  constructor
  · rintro ⟨p, hp1, hp2, hp3⟩
    unfold find_available_port
    cases h : findFreeAux busy start_port 100 with
    | some r =>
      rcases findFreeAux_some 100 start_port r h with ⟨h1, h2, h3⟩
      exact ⟨h1, h2, h3⟩
    | none =>
      have := @findFreeAux_isSome_of_free busy 100 start_port p hp1 hp2 hp3
      rw [h] at this
      simp at this
  · intro hall
    unfold find_available_port
    cases h : findFreeAux busy start_port 100 with
    | some r =>
      rcases findFreeAux_some 100 start_port r h with ⟨h1, h2, h3⟩
      have := hall r h1 h2
      rw [this] at h3
      simp at h3
    | none => rfl

/-- Witness for `find_available_port_amended` at the concrete occupancy
`c1Busy` (only port 8000 busy). -/
theorem find_available_port_amended_witness :
    (∃ p, 8000 ≤ p ∧ p < 8000 + 100 ∧ c1Busy p = false) ∧
      (8000 ≤ find_available_port c1Busy 8000
        ∧ find_available_port c1Busy 8000 < 8000 + 100
        ∧ c1Busy (find_available_port c1Busy 8000) = false) :=
  ⟨⟨8001, by decide⟩,
    (find_available_port_amended c1Busy 8000).1 ⟨8001, by decide⟩⟩

/-! ### Process supervisor (C7) -/

/-- C7: a stop followed by a status check reports `running = false`, and a
status check with no pid marker file present reports `running = false` (it
never raises). -/
theorem stop_then_status_not_running (s : SupState) :
    (check_django_deployment_status (stop_django_project s)).running = false
      ∧ (s.pidFile = none →
          (check_django_deployment_status s).running = false) := by
  constructor
  · match hs : s.pidFile with
    | none =>
      simp [stop_django_project, check_django_deployment_status, hs]
    | some pid =>
      by_cases ha : s.alive pid
      · simp [stop_django_project, check_django_deployment_status, hs, ha]
      · have ha' : s.alive pid = false := by
          revert ha; cases s.alive pid <;> simp
        simp [stop_django_project, check_django_deployment_status, hs, ha, ha']
  · intro h
    simp [check_django_deployment_status, h]

/-- Witness for `stop_then_status_not_running` at a concrete supervisor state
(pid marker recorded, process alive), and at a state with no marker file. -/
theorem stop_then_status_not_running_witness :
    (check_django_deployment_status (stop_django_project c7State)).running
        = false
      ∧ (check_django_deployment_status
          { pidFile := none, alive := fun _ => true : SupState }).running
        = false :=
  ⟨(stop_then_status_not_running c7State).1,
    (stop_then_status_not_running
      { pidFile := none, alive := fun _ => true }).2 rfl⟩

/-! ### Migration runner (C8) -/

/-- C8: on every exit path of `run_django_migrations_direct` — missing entry
script, a failing `chdir`, or an exception raised by any of the three
subprocess calls — the orchestrator's working directory after the call equals
the working directory before the call. -/
theorem run_django_migrations_direct_restores_cwd (env : MigEnv)
    (cwd0 : String) :
    (run_django_migrations_direct env cwd0).2 = cwd0 := by
  unfold run_django_migrations_direct
  cases env.manage_py_path with
  | none => rfl
  | some mp =>
    cases hres : (migTryBody env (dirname mp) cwd0).1 <;> simp [hres]

/-! ### Update/Rollback Manager (C2) -/

/-- C2 counterexample: a failed update whose restore steps all succeed but
whose restored process does not come up is nevertheless marked `deployed`,
not `failed`. -/
theorem update_restore_deployed_without_liveness :
    (update_django_project c2Env).deployment_status = "deployed"
      ∧ c2Env.restored_process_up = false := by
  exact ⟨rfl, rfl⟩

/-- C2 (amended): on a failed update the deployment is marked `deployed` again
exactly when a backup exists and no restore step raises — regardless of
whether the restored process comes up (the exit status of the restart is never
inspected); otherwise it stays `failed`. The rejected new archive stays
recorded and the old archive is not deleted. -/
theorem update_restore_amended (env : UpdateEnv)
    (h : env.deploy_success = false) :
    ((update_django_project env).deployment_status = "deployed" ↔
      (env.backup_exists = true
        ∧ (env.folder_exists_at_restore = true → env.rm_raises = false)
        ∧ env.move_raises = false ∧ env.compose_up_raises = false)) ∧
    (∀ b : Bool,
      (update_django_project { env with restored_process_up := b
        }).deployment_status
        = (update_django_project env).deployment_status) ∧
    ((update_django_project env).deployment_status = "deployed"
      ∨ (update_django_project env).deployment_status = "failed") ∧
    (update_django_project env).new_archive_recorded = true ∧
    (update_django_project env).old_archive_deleted = false := by
  refine ⟨?_, ?_, ?_, ?_, ?_⟩
  · by_cases hr : (env.backup_exists
        && (!env.folder_exists_at_restore || !env.rm_raises)
        && !env.move_raises && !env.compose_up_raises) = true
    · simp only [update_django_project, h, Bool.false_eq_true, if_false, hr,
        if_true]
      simp only [Bool.and_eq_true, Bool.or_eq_true, Bool.not_eq_true'] at hr
      constructor
      · intro _
        refine ⟨hr.1.1.1, ?_, hr.1.2, hr.2⟩
        intro hfe
        rcases hr.1.1.2 with h1 | h1
        · rw [hfe] at h1; exact absurd h1 (by simp)
        · exact h1
      · intro _; trivial
    · simp only [update_django_project, h, Bool.false_eq_true, if_false, hr,
        if_false]
      constructor
      · intro hc; exact absurd hc (by simp)
      · rintro ⟨h1, h2, h3, h4⟩
        exfalso
        apply hr
        simp only [Bool.and_eq_true, Bool.or_eq_true, Bool.not_eq_true']
        refine ⟨⟨⟨h1, ?_⟩, h3⟩, h4⟩
        by_cases hfe : env.folder_exists_at_restore
        · right; exact h2 hfe
        · left; revert hfe; cases env.folder_exists_at_restore <;> simp
  · intro b
    simp [update_django_project, h]
  · by_cases hr : (env.backup_exists
        && (!env.folder_exists_at_restore || !env.rm_raises)
        && !env.move_raises && !env.compose_up_raises) = true
    · left; simp [update_django_project, h, hr]
    · right; simp [update_django_project, h, hr]
  · by_cases hr : (env.backup_exists
        && (!env.folder_exists_at_restore || !env.rm_raises)
        && !env.move_raises && !env.compose_up_raises) = true
    · simp [update_django_project, h, hr]
    · simp [update_django_project, h, hr]
  · by_cases hr : (env.backup_exists
        && (!env.folder_exists_at_restore || !env.rm_raises)
        && !env.move_raises && !env.compose_up_raises) = true
    · simp [update_django_project, h, hr]
    · simp [update_django_project, h, hr]

/-- Witness for `update_restore_amended` at the concrete environment
`c2Env` (deployment failed, backup restored cleanly). -/
theorem update_restore_amended_witness :
    c2Env.deploy_success = false ∧
    ((update_django_project c2Env).deployment_status = "deployed" ↔
      (c2Env.backup_exists = true
        ∧ (c2Env.folder_exists_at_restore = true → c2Env.rm_raises = false)
        ∧ c2Env.move_raises = false ∧ c2Env.compose_up_raises = false)) :=
  ⟨rfl, (update_restore_amended c2Env rfl).1⟩

/-! ### Archive Validator (C3) -/

/-- C3 counterexample: the archive `["app/xmanage.py", "app/settings.py"]`
contains no file named exactly `manage.py`, yet the validator returns ok,
because the source tests `f.lower().endswith('manage.py')`. -/
theorem clean_project_file_counterexample :
    clean_project_file (some c3Files) = ArchiveVerdict.ok
      ∧ ¬ (∃ f ∈ c3Files, specEntryScript f = true) := by
  constructor
  · rfl
  · decide

/-- C3 (amended): the validator returns ok exactly when the archive has an
entry whose lowercased name merely ends with `manage.py` (not necessarily is
named exactly `manage.py`) and an entry whose lowercased path contains
`settings.py`, in both cases excluding only names that literally start with
`__MACOSX` (nested Mac-metadata folders are not excluded); when the entry
check fails it returns missing-entry-script, when only the config check fails
it returns missing-config-module, and a malformed archive yields the
malformed-archive verdict. -/
theorem clean_project_file_amended (files : List String) :
    (clean_project_file (some files) = ArchiveVerdict.ok ↔
      (∃ f ∈ files,
        (strEndsWith (strLower f) "manage.py"
          && !(strStartsWith f "__MACOSX")) = true)
      ∧ (∃ f ∈ files,
        (strContains (strLower f) "settings.py"
          && !(strStartsWith f "__MACOSX")) = true)) ∧
    (clean_project_file (some files) = ArchiveVerdict.missingEntryScript ↔
      ¬ (∃ f ∈ files,
        (strEndsWith (strLower f) "manage.py"
          && !(strStartsWith f "__MACOSX")) = true)) ∧
    (clean_project_file (some files) = ArchiveVerdict.missingConfigModule ↔
      ((∃ f ∈ files,
        (strEndsWith (strLower f) "manage.py"
          && !(strStartsWith f "__MACOSX")) = true)
      ∧ ¬ (∃ f ∈ files,
        (strContains (strLower f) "settings.py"
          && !(strStartsWith f "__MACOSX")) = true))) ∧
    clean_project_file none = ArchiveVerdict.malformedArchive := by
  have hm : zipHasManagePy files = true ↔
      ∃ f ∈ files, (strEndsWith (strLower f) "manage.py"
        && !(strStartsWith f "__MACOSX")) = true := by
    simp [zipHasManagePy, List.any_eq_true]
  have hsett : zipHasSettings files = true ↔
      ∃ f ∈ files, (strContains (strLower f) "settings.py"
        && !(strStartsWith f "__MACOSX")) = true := by
    simp [zipHasSettings, List.any_eq_true]
  rw [← hm, ← hsett]
  by_cases h1 : zipHasManagePy files = true
  · by_cases h2 : zipHasSettings files = true
    · simp [clean_project_file, h1, h2]
    · simp [clean_project_file, h1, h2]
  · simp [clean_project_file, h1]

/-! ### Environment-variable cleaner (C9) -/

/-- C9 evaluation of the validator as written: a lowercase key is rejected, a
non-empty line without `=` is rejected, and a well-formed declaration is
parsed into uppercase-identifier key/value pairs. (The source defect is that
this function is nested inside the module-level `clean_project_name` and is
never bound as a method of `DjangoProjectForm`, so the form never runs it.) -/
theorem clean_environment_vars_eval :
    clean_environment_vars "debug_mode=on"
      = Except.error ("Invalid environment variable name: debug_mode"
          ++ ". Use uppercase letters, numbers, and underscores only.") ∧
    clean_environment_vars "NOEQUALS"
      = Except.error ("Invalid environment variable format: NOEQUALS"
          ++ ". Use KEY=value format.") ∧
    clean_environment_vars "DEBUG_MODE=on\nAPI_KEY=abc 123"
      = Except.ok [("DEBUG_MODE", "on"), ("API_KEY", "abc 123")] := by
  refine ⟨rfl, rfl, rfl⟩

/-! ### Structure Detector (C10) -/

theorem isSettingsUnder_getLast {root q : List String}
    (h : isSettingsUnder root q = true) :
    q.getLast? = some "settings.py" := by
  simp only [isSettingsUnder, Bool.and_eq_true] at h
  obtain ⟨hpre, hmatch⟩ := h
  have hq : root ++ q.drop root.length = q := by
    rcases (List.isPrefixOf_iff_prefix.mp hpre) with ⟨t, ht⟩
    subst ht
    rw [List.drop_left]
  cases hd : q.drop root.length with
  | nil => rw [hd] at hmatch; simp at hmatch
  | cons n rest =>
    cases rest with
    | nil => rw [hd] at hmatch; simp at hmatch
    | cons f rest2 =>
      cases rest2 with
      | nil =>
        rw [hd] at hmatch
        simp only [Bool.and_eq_true, beq_iff_eq] at hmatch
        rw [← hq, hd]
        rw [List.getLast?_append]
        simp [hmatch.2]
      | cons x xs => rw [hd] at hmatch; simp at hmatch

/-- C10: the structure detector reports a valid project exactly when some file
named `manage.py` is reachable through non-hidden directories, independently of
any `settings.py`; when no path ends in `settings.py` at all the detection
still succeeds with a null settings-module; and the pipeline's primary
validity check passes exactly when the flag is true. -/
theorem detect_django_structure_claim (paths : List (List String)) :
    ((detect_django_structure paths).is_django = true ↔
      ∃ p ∈ paths, isManagePath p = true) ∧
    ((∀ q ∈ paths, (q.getLast? == some "settings.py") = false) →
      (detect_django_structure paths).settings_module = none) ∧
    (deployGateError paths = none ↔
      (detect_django_structure paths).is_django = true) := by
  refine ⟨?_, ?_, ?_⟩
  · cases h : paths.find? isManagePath with
    | none =>
      simp only [detect_django_structure, h]
      constructor
      · intro hc; exact absurd hc (by simp)
      · rintro ⟨p, hp, hp2⟩
        have := List.find?_eq_none.mp h p hp
        rw [hp2] at this
        simp at this
    | some p =>
      simp only [detect_django_structure, h]
      constructor
      · intro _
        exact ⟨p, List.mem_of_find?_eq_some h, List.find?_some h⟩
      · intro _; trivial
  · intro hnone
    cases h : paths.find? isManagePath with
    | none => simp [detect_django_structure, h]
    | some p =>
      simp only [detect_django_structure, h]
      have hfind : paths.find? (isSettingsUnder p.dropLast) = none := by
        rw [List.find?_eq_none]
        intro q hq hcontra
        have hlast := isSettingsUnder_getLast hcontra
        have := hnone q hq
        rw [hlast] at this
        simp at this
      simp [hfind]
  · cases h : (detect_django_structure paths).is_django with
    | false => simp [deployGateError, h]
    | true => simp [deployGateError, h]

/-- Witness for `detect_django_structure_claim` at a concrete tree containing
`proj/manage.py` but no `settings.py` anywhere. -/
theorem detect_django_structure_claim_witness :
    (detect_django_structure c10Paths).is_django = true ∧
    (detect_django_structure c10Paths).settings_module = none ∧
    deployGateError c10Paths = none :=
  ⟨(detect_django_structure_claim c10Paths).1.mpr
      ⟨["proj", "manage.py"], by decide⟩,
    (detect_django_structure_claim c10Paths).2.1 (by decide),
    (detect_django_structure_claim c10Paths).2.2.mpr
      ((detect_django_structure_claim c10Paths).1.mpr
        ⟨["proj", "manage.py"], by decide⟩)⟩

/-! ### Dependency Resolver (C6) -/

theorem keepRequirement_eq_none_of_deny {bad : String}
    (hbad : denySubstrings.any
      (fun d => strContains (strLower (pyStrip bad)) d) = true) :
    keepRequirement bad = none := by
  unfold keepRequirement
  by_cases h1 : (pyStrip bad == "" || strStartsWith (pyStrip bad) "#"
      || strStartsWith (pyStrip bad) "-") = true
  · simp [h1]
  · simp [h1, hbad]

/-- C6: with a manifest holding one denylisted and one valid entry, only the
valid package ever appears in an install invocation; the resolver returns its
best-effort success flag (True) for every manifest and every bulk outcome once
the file is readable, and whether the pipeline reaches the migration step is
unaffected by the install outcome. -/
theorem dependency_resolver_claim (bad good : String)
    (hbad : denySubstrings.any
      (fun d => strContains (strLower (pyStrip bad)) d) = true)
    (hgood : keepRequirement good = some (pyStrip good)) :
    filterRequirements [bad, good] = [pyStrip good] ∧
    (∀ bulkOk : Bool,
      (install_from_requirements_file true [bad, good] bulkOk).1 = true ∧
      ∀ inv ∈ (install_from_requirements_file true [bad, good] bulkOk).2,
        ∀ p ∈ inv, p = pyStrip good) ∧
    (∀ (reqs : List String) (bulkOk : Bool),
      (install_from_requirements_file true reqs bulkOk).1 = true) ∧
    (∀ (env : DeployEnv) (b : Bool),
      (PipelineStep.runMigrations
          ∈ (deploy_django_no_venv { env with installOk := b }).2 ↔
        PipelineStep.runMigrations ∈ (deploy_django_no_venv env).2)) := by
  have hfilter : filterRequirements [bad, good] = [pyStrip good] := by
    simp [filterRequirements, List.filterMap,
      keepRequirement_eq_none_of_deny hbad, hgood]
  refine ⟨hfilter, ?_, ?_, ?_⟩
  · intro bulkOk
    cases bulkOk with
    | false =>
      have hinst : install_from_requirements_file true [bad, good] false
          = (true, [[pyStrip good], [pyStrip good]]) := by
        simp [install_from_requirements_file, hfilter]
      rw [hinst]
      refine ⟨rfl, ?_⟩
      intro inv hinv p hp
      simp only [List.mem_cons, List.mem_singleton, List.not_mem_nil,
        or_false] at hinv
      rcases hinv with h | h <;>
        · subst h; simpa using hp
    | true =>
      have hinst : install_from_requirements_file true [bad, good] true
          = (true, [[pyStrip good]]) := by
        simp [install_from_requirements_file, hfilter]
      rw [hinst]
      refine ⟨rfl, ?_⟩
      intro inv hinv p hp
      simp only [List.mem_singleton] at hinv
      subst hinv
      simpa using hp
  · intro reqs bulkOk
    by_cases he : (filterRequirements reqs).isEmpty = true
    · simp [install_from_requirements_file, he]
    · cases bulkOk <;> simp [install_from_requirements_file, he]
  · intro env b
    simp [deploy_django_no_venv]

/-- Witness for `dependency_resolver_claim` with the denylisted entry
`psycopg2-binary==2.9` and the valid entry `requests==2.31.0`. -/
theorem dependency_resolver_claim_witness :
    denySubstrings.any
      (fun d => strContains (strLower (pyStrip "psycopg2-binary==2.9")) d)
        = true ∧
    keepRequirement "requests==2.31.0" = some (pyStrip "requests==2.31.0") ∧
    filterRequirements ["psycopg2-binary==2.9", "requests==2.31.0"]
      = [pyStrip "requests==2.31.0"] :=
  ⟨by decide, by decide,
    (dependency_resolver_claim "psycopg2-binary==2.9" "requests==2.31.0"
      (by decide) (by decide)).1⟩

/-! ### Configuration Rewriter (C4, C5) -/

theorem countDatabasesAssigns_append (a b : List String) :
    countDatabasesAssigns (a ++ b)
      = countDatabasesAssigns a + countDatabasesAssigns b := by
  simp [countDatabasesAssigns, List.filter_append]

theorem countAllowedHostsAssigns_append (a b : List String) :
    countAllowedHostsAssigns (a ++ b)
      = countAllowedHostsAssigns a + countAllowedHostsAssigns b := by
  simp [countAllowedHostsAssigns, List.filter_append]

theorem countDatabasesAssigns_one_of_true {l : String}
    (h : isDatabasesAssign l = true) : countDatabasesAssigns [l] = 1 := by
  simp [countDatabasesAssigns, List.filter, h]

theorem countDatabasesAssigns_zero_of_false {l : String}
    (h : isDatabasesAssign l = false) : countDatabasesAssigns [l] = 0 := by
  simp [countDatabasesAssigns, List.filter, h]

theorem countAllowedHostsAssigns_one_of_true {l : String}
    (h : isAllowedHostsAssign l = true) : countAllowedHostsAssigns [l] = 1 := by
  simp [countAllowedHostsAssigns, List.filter, h]

theorem countAllowedHostsAssigns_zero_of_false {l : String}
    (h : isAllowedHostsAssign l = false) : countAllowedHostsAssigns [l] = 0 := by
  simp [countAllowedHostsAssigns, List.filter, h]

theorem countDatabasesAssigns_dbBlockLines {db_path : String}
    (h : isDatabasesAssign (dbNameLine db_path) = false) :
    countDatabasesAssigns (dbBlockLines db_path) = 1 := by
  have h1 : countDatabasesAssigns dbBlockPre = 1 := by decide
  have h2 : countDatabasesAssigns dbBlockPost = 0 := by decide
  rw [dbBlockLines, countDatabasesAssigns_append, countDatabasesAssigns_append,
    h1, h2, countDatabasesAssigns_zero_of_false h]

theorem countAllowedHostsAssigns_dbBlockLines {db_path : String}
    (h : isAllowedHostsAssign (dbNameLine db_path) = false) :
    countAllowedHostsAssigns (dbBlockLines db_path) = 0 := by
  have h1 : countAllowedHostsAssigns dbBlockPre = 0 := by decide
  have h2 : countAllowedHostsAssigns dbBlockPost = 0 := by decide
  rw [dbBlockLines, countAllowedHostsAssigns_append,
    countAllowedHostsAssigns_append, h1, h2,
    countAllowedHostsAssigns_zero_of_false h]

theorem modifyLine_out_skip {db_path domain : String} {port : Nat}
    {wAbs : Bool} {s : RewriteState} {line : String}
    (hskip : s.skip_until_end = true) :
    (modifyLine db_path domain port wAbs s line).out = s.out := by
  simp only [modifyLine, hskip, if_true]
  split_ifs <;> rfl

theorem modifyLine_out_db {db_path domain : String} {port : Nat}
    {wAbs : Bool} {s : RewriteState} {line : String}
    (hskip : s.skip_until_end = false) (hdb : isDatabasesAssign line = true) :
    (modifyLine db_path domain port wAbs s line).out
      = s.out ++ dbBlockLines db_path := by
  simp only [modifyLine, hskip, Bool.false_eq_true, if_false, hdb, if_true]
  split_ifs <;> rfl

theorem modifyLine_out_ah {db_path domain : String} {port : Nat}
    {wAbs : Bool} {s : RewriteState} {line : String}
    (hskip : s.skip_until_end = false) (hdb : isDatabasesAssign line = false)
    (hah : isAllowedHostsAssign line = true) :
    (modifyLine db_path domain port wAbs s line).out
      = s.out ++ [allowedHostsLine domain port] := by
  simp only [modifyLine, hskip, Bool.false_eq_true, if_false, hdb, hah,
    if_true]

theorem modifyLine_out_debug {db_path domain : String} {port : Nat}
    {wAbs : Bool} {s : RewriteState} {line : String}
    (hskip : s.skip_until_end = false) (hdb : isDatabasesAssign line = false)
    (hah : isAllowedHostsAssign line = false)
    (hdbg : isDebugAssign line = true) :
    (modifyLine db_path domain port wAbs s line).out
      = s.out ++ ["DEBUG = True"] := by
  simp only [modifyLine, hskip, Bool.false_eq_true, if_false, hdb, hah, hdbg,
    if_true]

theorem modifyLine_out_mw {db_path domain : String} {port : Nat}
    {wAbs : Bool} {s : RewriteState} {line : String}
    (hskip : s.skip_until_end = false) (hdb : isDatabasesAssign line = false)
    (hah : isAllowedHostsAssign line = false)
    (hdbg : isDebugAssign line = false)
    (hmw : isMiddlewareAssign wAbs line = true) :
    (modifyLine db_path domain port wAbs s line).out
      = s.out ++ middlewareBlockLines := by
  simp only [modifyLine, hskip, Bool.false_eq_true, if_false, hdb, hah, hdbg,
    hmw, if_true]
  split_ifs <;> rfl

theorem modifyLine_out_keep {db_path domain : String} {port : Nat}
    {wAbs : Bool} {s : RewriteState} {line : String}
    (hskip : s.skip_until_end = false) (hdb : isDatabasesAssign line = false)
    (hah : isAllowedHostsAssign line = false)
    (hdbg : isDebugAssign line = false)
    (hmw : isMiddlewareAssign wAbs line = false) :
    (modifyLine db_path domain port wAbs s line).out = s.out ++ [line] := by
  simp only [modifyLine, hskip, Bool.false_eq_true, if_false, hdb, hah, hdbg,
    hmw]

theorem modifyLine_counts {db_path domain : String} {port : Nat} {wAbs : Bool}
    (hdbname : isDatabasesAssign (dbNameLine db_path) = false)
    (hdbah : isDatabasesAssign (allowedHostsLine domain port) = false)
    (hahname : isAllowedHostsAssign (dbNameLine db_path) = false)
    (hahah : isAllowedHostsAssign (allowedHostsLine domain port) = true)
    (s : RewriteState) (line : String) :
    countDatabasesAssigns (modifyLine db_path domain port wAbs s line).out
        ≤ countDatabasesAssigns s.out + countDatabasesAssigns [line] ∧
    countAllowedHostsAssigns (modifyLine db_path domain port wAbs s line).out
        ≤ countAllowedHostsAssigns s.out + countAllowedHostsAssigns [line] := by
  by_cases hskip : s.skip_until_end = true
  · rw [modifyLine_out_skip hskip]
    exact ⟨Nat.le_add_right _ _, Nat.le_add_right _ _⟩
  · have hskip' : s.skip_until_end = false := by
      revert hskip; cases s.skip_until_end <;> simp
    by_cases hdb : isDatabasesAssign line = true
    · rw [modifyLine_out_db hskip' hdb, countDatabasesAssigns_append,
        countAllowedHostsAssigns_append,
        countDatabasesAssigns_dbBlockLines hdbname,
        countAllowedHostsAssigns_dbBlockLines hahname,
        countDatabasesAssigns_one_of_true hdb]
      exact ⟨Nat.le_refl _, Nat.le_add_right _ _⟩
    · have hdb' : isDatabasesAssign line = false := by
        revert hdb; cases isDatabasesAssign line <;> simp
      by_cases hah : isAllowedHostsAssign line = true
      · rw [modifyLine_out_ah hskip' hdb' hah, countDatabasesAssigns_append,
          countAllowedHostsAssigns_append,
          countDatabasesAssigns_zero_of_false hdbah,
          countAllowedHostsAssigns_one_of_true hahah,
          countAllowedHostsAssigns_one_of_true hah]
        exact ⟨Nat.le_add_right _ _, Nat.le_refl _⟩
      · have hah' : isAllowedHostsAssign line = false := by
          revert hah; cases isAllowedHostsAssign line <;> simp
        by_cases hdbg : isDebugAssign line = true
        · rw [modifyLine_out_debug hskip' hdb' hah' hdbg,
            countDatabasesAssigns_append, countAllowedHostsAssigns_append,
            countDatabasesAssigns_zero_of_false (by decide),
            countAllowedHostsAssigns_zero_of_false (by decide)]
          exact ⟨Nat.le_add_right _ _, Nat.le_add_right _ _⟩
        · have hdbg' : isDebugAssign line = false := by
            revert hdbg; cases isDebugAssign line <;> simp
          by_cases hmw : isMiddlewareAssign wAbs line = true
          · have e1 : countDatabasesAssigns middlewareBlockLines = 0 := by
              decide
            have e2 : countAllowedHostsAssigns middlewareBlockLines = 0 := by
              decide
            rw [modifyLine_out_mw hskip' hdb' hah' hdbg' hmw,
              countDatabasesAssigns_append, countAllowedHostsAssigns_append,
              e1, e2]
            exact ⟨Nat.le_add_right _ _, Nat.le_add_right _ _⟩
          · have hmw' : isMiddlewareAssign wAbs line = false := by
              revert hmw; cases isMiddlewareAssign wAbs line <;> simp
            rw [modifyLine_out_keep hskip' hdb' hah' hdbg' hmw',
              countDatabasesAssigns_append, countAllowedHostsAssigns_append]
            exact ⟨Nat.le_refl _, Nat.le_refl _⟩

theorem foldl_modifyLine_counts {db_path domain : String} {port : Nat}
    {wAbs : Bool}
    (hdbname : isDatabasesAssign (dbNameLine db_path) = false)
    (hdbah : isDatabasesAssign (allowedHostsLine domain port) = false)
    (hahname : isAllowedHostsAssign (dbNameLine db_path) = false)
    (hahah : isAllowedHostsAssign (allowedHostsLine domain port) = true) :
    ∀ (lines : List String) (s : RewriteState),
      countDatabasesAssigns
          ((lines.foldl (modifyLine db_path domain port wAbs) s).out)
        ≤ countDatabasesAssigns s.out + countDatabasesAssigns lines ∧
      countAllowedHostsAssigns
          ((lines.foldl (modifyLine db_path domain port wAbs) s).out)
        ≤ countAllowedHostsAssigns s.out + countAllowedHostsAssigns lines := by
  intro lines
  induction lines with
  | nil =>
    intro s
    simp [countDatabasesAssigns, countAllowedHostsAssigns]
  | cons l ls ih =>
    intro s
    obtain ⟨hs1, hs2⟩ :=
      @modifyLine_counts db_path domain port wAbs hdbname hdbah hahname hahah
        s l
    have hcons1 : countDatabasesAssigns (l :: ls)
        = countDatabasesAssigns [l] + countDatabasesAssigns ls := by
      have := countDatabasesAssigns_append [l] ls
      simpa using this
    have hcons2 : countAllowedHostsAssigns (l :: ls)
        = countAllowedHostsAssigns [l] + countAllowedHostsAssigns ls := by
      have := countAllowedHostsAssigns_append [l] ls
      simpa using this
    obtain ⟨hr1, hr2⟩ := ih (modifyLine db_path domain port wAbs s l)
    rw [List.foldl_cons, hcons1, hcons2]
    constructor <;> omega

set_option maxRecDepth 100000 in
/-- C4 counterexample: rewriting an input with a duplicated hostnames
assignment, and rewriting the result again with the same folder, domain and
port, yields a file with two ALLOWED_HOSTS assignments and no DATABASES
block — not exactly one of each. -/
theorem modify_existing_settings_duplication_cex :
    countAllowedHostsAssignsStr
        (modify_existing_settings
          (modify_existing_settings c4Input "/data/web" "example.com" 8001)
          "/data/web" "example.com" 8001) = 2 ∧
    countDatabasesAssignsStr
        (modify_existing_settings
          (modify_existing_settings c4Input "/data/web" "example.com" 8001)
          "/data/web" "example.com" 8001) = 0 := by
  constructor <;> decide

/-- C4 (amended): re-applying the in-place rewriter can never increase the
number of DATABASES assignments or ALLOWED_HOSTS assignments present in the
configuration (no duplication), for any project folder/domain whose canonical
replacement lines are not themselves recognized as further assignments; the
"exactly one of each" guarantee, however, holds only when the already-written
file contains exactly one of each. -/
theorem modify_existing_settings_no_duplication
    (lines : List String) (project_folder domain : String) (port : Nat)
    (wAbs : Bool)
    (hdbname : isDatabasesAssign (dbNameLine (dbPath project_folder)) = false)
    (hdbah : isDatabasesAssign (allowedHostsLine domain port) = false)
    (hahname : isAllowedHostsAssign (dbNameLine (dbPath project_folder))
      = false)
    (hahah : isAllowedHostsAssign (allowedHostsLine domain port) = true) :
    countDatabasesAssigns (modifyLines lines project_folder domain port wAbs)
        ≤ countDatabasesAssigns lines ∧
    countAllowedHostsAssigns
        (modifyLines lines project_folder domain port wAbs)
        ≤ countAllowedHostsAssigns lines := by
  have h := @foldl_modifyLine_counts (dbPath project_folder) domain port wAbs
    hdbname hdbah hahname hahah lines rewriteInit
  simpa [modifyLines, rewriteInit, countDatabasesAssigns,
    countAllowedHostsAssigns] using h

/-- Witness for `modify_existing_settings_no_duplication` at concrete
folder `/data/web`, domain `example.com`, port 8001 and a two-line
configuration. -/
theorem modify_existing_settings_no_duplication_witness :
    isDatabasesAssign (dbNameLine (dbPath "/data/web")) = false ∧
    isDatabasesAssign (allowedHostsLine "example.com" 8001) = false ∧
    isAllowedHostsAssign (dbNameLine (dbPath "/data/web")) = false ∧
    isAllowedHostsAssign (allowedHostsLine "example.com" 8001) = true ∧
    (countDatabasesAssigns
        (modifyLines ["ALLOWED_HOSTS = []", "X = 1"] "/data/web" "example.com"
          8001 true)
        ≤ countDatabasesAssigns ["ALLOWED_HOSTS = []", "X = 1"] ∧
      countAllowedHostsAssigns
        (modifyLines ["ALLOWED_HOSTS = []", "X = 1"] "/data/web" "example.com"
          8001 true)
        ≤ countAllowedHostsAssigns ["ALLOWED_HOSTS = []", "X = 1"]) :=
  ⟨by decide, by decide, by decide, by decide,
    modify_existing_settings_no_duplication
      ["ALLOWED_HOSTS = []", "X = 1"] "/data/web" "example.com" 8001 true
      (by decide) (by decide) (by decide) (by decide)⟩

set_option maxRecDepth 100000 in
/-- C5: the skip loop tracks only curly braces, so when the replaced block is
the square-bracketed middleware list the skip never terminates: the
`ROOT_URLCONF` line that follows the list in the input is dropped from the
output, while with a curly-braced multi-line DATABASES dict the trailing line
is correctly preserved. -/
theorem modify_existing_settings_middleware_drops_tail :
    strContains c5Input "ROOT_URLCONF" = true ∧
    strContains
        (modify_existing_settings c5Input "/data/web" "example.com" 8001)
        "ROOT_URLCONF" = false ∧
    strContains
        (modify_existing_settings c5DbInput "/data/web" "example.com" 8001)
        "ROOT_URLCONF" = true := by
  refine ⟨by decide, by decide, by decide⟩

end WebHosting
